import Mathlib

/-!
Verification development for the `LockFreeQueue` repository.

The repository contains several revisions of the same fixed-capacity
multi-producer/multi-consumer ring-buffer queue.  We embed two of them:

* `V1` — the revision in `src/include/LockFreeQueue.h` (first compilation
  unit): `push` returns `bool` (non-blocking on a full queue), per-slot
  `_isBusy` flags, a single `_pendingData` counter (a C++ `long long`,
  modelled as `Int`), and a back-off with start `-10`, step `1`, max `1`.
* `V3` — the revision in `src/LockFreeQueue.h`: `push` returns `void` and
  retries internally until it claims a slot, per-slot `_hasData` flags,
  `size_t` counters `_pendingActions` / `_pendingData` (modelled as `Nat`),
  and a back-off with step `1` and max `100`.

The embedding is sequential: a single thread runs an operation to
completion, so the critical section guarded by `_canUpdate` executes
atomically.  The retry loops of `push`/`pop` are given explicit fuel; a
result of `none` means the operation is still spinning after `fuel`
attempts (which, for a single thread, means it spins forever).
-/

set_option autoImplicit false

namespace V1

/-- State of `LockFreeQueue<QueueItemT, bufferSize>` from
`src/include/LockFreeQueue.h` (the revision whose `push` returns `bool`).
Fields mirror the C++ data members: `_buffer` (the ring buffer), `_isBusy`
(one busy flag per slot), `_head` (consumer index), `_tail` (producer
index), `_pendingData` (a `long long` counter, hence `Int`) and
`_canUpdate` (the critical-section flag). -/
structure LockFreeQueue (α : Type) where
  buffer : List α
  isBusy : List Bool
  head : Nat
  tail : Nat
  pendingData : Int
  canUpdate : Bool
deriving DecidableEq

variable {α : Type}

/-- `sleepDurationStart{ -10 }` (nanoseconds). -/
def sleepDurationStart : Int := -10

/-- `sleepDurationStep{ 1 }` (nanoseconds). -/
def sleepDurationStep : Int := 1

/-- `_maxSleepDuration{ 1 }` (nanoseconds). -/
def maxSleepDuration : Int := 1

/-- `backOff` of `src/include/LockFreeQueue.h`: if the duration is below
`sleepDurationStep` it is only incremented (cheap spin, no sleep);
otherwise the thread sleeps and the duration is incremented while below
`_maxSleepDuration`, else reset to `sleepDurationStart`.  Only the
returned duration is modelled; the yield/sleep are timing side effects. -/
def backOff (sleepDuration : Int) : Int :=
  if sleepDuration < sleepDurationStep then
    sleepDuration + sleepDurationStep
  else if sleepDuration < maxSleepDuration then
    sleepDuration + sleepDurationStep
  else
    sleepDurationStart

/-- The body of `push`'s critical section (lines 52-67 of
`src/include/LockFreeQueue.h`): compute `newTail = (tail+1) % N`; if
`newTail == head` the queue is full (stop trying, claim nothing); else if
`_isBusy[tail]` is already set, keep trying; else claim index `tail`
(its busy flag is set by the `exchange(true)`) and store `newTail` into
`_tail`.  Returns `(pushIndex, keepTrying, new state)`. -/
def tryClaimPush (N : Nat) (s : LockFreeQueue α) :
    Option Nat × Bool × LockFreeQueue α :=
  let newTail := (s.tail + 1) % N
  if newTail ≠ s.head then
    if s.isBusy.getD s.tail false = false then
      (some s.tail, false,
        { s with isBusy := s.isBusy.set s.tail true, tail := newTail })
    else
      (none, true, s)
  else
    (none, false, s)

/-- One iteration of `push`'s retry loop: try to acquire `_canUpdate` by
`exchange(false, acquire)`; on success run the critical section and
release the flag; on failure keep trying with the state untouched. -/
def pushAttempt (N : Nat) (s : LockFreeQueue α) :
    Option Nat × Bool × LockFreeQueue α :=
  if s.canUpdate then
    let r := tryClaimPush N { s with canUpdate := false }
    (r.1, r.2.1, { r.2.2 with canUpdate := true })
  else
    (none, true, s)

/-- The `do … while (keepTrying)` loop of `push`, with explicit fuel and
the `sleepDuration` threaded through `backOff` exactly as in the source.
`none` means the loop is still retrying after `fuel` attempts. -/
def pushLoop (N : Nat) : Nat → LockFreeQueue α → Int →
    Option (Option Nat × LockFreeQueue α)
  | 0, _, _ => none
  | fuel + 1, s, d =>
    match pushAttempt N s with
    | (idx, false, s') => some (idx, s')
    | (_, true, s') => pushLoop N fuel s' (backOff d)

/-- The first action of `push` (lines 43-46): `_pendingData.fetch_add(2)`,
announcing the intent to add data before any slot is claimed. -/
def pushBegin (s : LockFreeQueue α) : LockFreeQueue α :=
  { s with pendingData := s.pendingData + 2 }

/-- `push` of `src/include/LockFreeQueue.h`: add 2 to `_pendingData`, run
the claim loop; if an index was claimed, write the item there, subtract 1
from `_pendingData` and clear the slot's busy flag, returning `true`;
otherwise (queue full) subtract the 2 back and return `false`.  `none`
means the claim loop was still spinning after `fuel` attempts. -/
def push (N fuel : Nat) (s : LockFreeQueue α) (x : α) :
    Option (LockFreeQueue α × Bool) :=
  match pushLoop N fuel (pushBegin s) sleepDurationStart with
  | none => none
  | some (some i, s') =>
      some ({ s' with buffer := s'.buffer.set i x,
                      pendingData := s'.pendingData - 1,
                      isBusy := s'.isBusy.set i false }, true)
  | some (none, s') =>
      some ({ s' with pendingData := s'.pendingData - 2 }, false)

/-- The body of `pop`'s critical section (lines 124-142): if
`head == tail` the queue is empty (stop trying, claim nothing); else if
`_isBusy[head]` is set (the producer has not finished committing), keep
trying; else claim index `head` (busy flag set by the `exchange(true)`)
and advance `_head` to `(head+1) % N`. -/
def tryClaimPop (N : Nat) (s : LockFreeQueue α) :
    Option Nat × Bool × LockFreeQueue α :=
  if s.head ≠ s.tail then
    if s.isBusy.getD s.head false = false then
      (some s.head, false,
        { s with isBusy := s.isBusy.set s.head true,
                 head := (s.head + 1) % N })
    else
      (none, true, s)
  else
    (none, false, s)

/-- One iteration of `pop`'s retry loop (acquire `_canUpdate`, run the
critical section, release). -/
def popAttempt (N : Nat) (s : LockFreeQueue α) :
    Option Nat × Bool × LockFreeQueue α :=
  if s.canUpdate then
    let r := tryClaimPop N { s with canUpdate := false }
    (r.1, r.2.1, { r.2.2 with canUpdate := true })
  else
    (none, true, s)

/-- The `do … while (keepTrying)` loop of `pop`, with explicit fuel. -/
def popLoop (N : Nat) : Nat → LockFreeQueue α → Int →
    Option (Option Nat × LockFreeQueue α)
  | 0, _, _ => none
  | fuel + 1, s, d =>
    match popAttempt N s with
    | (idx, false, s') => some (idx, s')
    | (_, true, s') => popLoop N fuel s' (backOff d)

/-- `pop` of `src/include/LockFreeQueue.h`: run the claim loop; if an
index was claimed, read the item out, subtract 1 from `_pendingData` and
clear the busy flag, returning the item; otherwise (queue empty) return
no item.  The C++ out-parameter / `bool` pair is modelled as
`Option α`. -/
def pop [Inhabited α] (N fuel : Nat) (s : LockFreeQueue α) :
    Option (LockFreeQueue α × Option α) :=
  match popLoop N fuel s sleepDurationStart with
  | none => none
  | some (some i, s') =>
      some ({ s' with pendingData := s'.pendingData - 1,
                      isBusy := s'.isBusy.set i false },
            some (s'.buffer.getD i default))
  | some (none, s') => some (s', none)

/-- `hasData`: `_pendingData.load() != 0`. -/
def hasData (s : LockFreeQueue α) : Bool :=
  s.pendingData != 0

/-- The default-constructed queue: zero indices, all busy flags clear,
zero counter, `_canUpdate` true, default-constructed items. -/
def initial (α : Type) [Inhabited α] (N : Nat) : LockFreeQueue α :=
  { buffer := List.replicate N default
    isBusy := List.replicate N false
    head := 0
    tail := 0
    pendingData := 0
    canUpdate := true }

/-- Number of slots currently holding a committed, unread value.  In this
revision a slot is committed and unread exactly when its index lies in
the ring interval from `head` (inclusive) to `tail` (exclusive), so the
count is `(tail - head) mod N`, written without `%` via a case split. -/
def committedCount (N : Nat) (s : LockFreeQueue α) : Nat :=
  if s.head ≤ s.tail then s.tail - s.head else s.tail + N - s.head

/-- Queue states reachable by a single thread running complete `push` and
`pop` operations from the freshly constructed queue. -/
inductive Reachable (α : Type) [Inhabited α] (N : Nat) :
    LockFreeQueue α → Prop
  | init : Reachable α N (initial α N)
  | pushStep {s s' : LockFreeQueue α} {fuel : Nat} {x : α} {b : Bool} :
      Reachable α N s → push N fuel s x = some (s', b) → Reachable α N s'
  | popStep {s s' : LockFreeQueue α} {fuel : Nat} {r : Option α} :
      Reachable α N s → pop N fuel s = some (s', r) → Reachable α N s'

end V1

namespace V3

/-- State of `LockFreeQueue<QueueItemT, bufferSize>` from
`src/LockFreeQueue.h` (the revision whose `push` returns `void` and
retries until it succeeds).  Fields mirror the C++ data members:
`_buffer`, `_hasData` (one committed-data flag per slot, here
`hasDataFlags`), `_head`, `_tail`, `_pendingActions` and `_pendingData`
(both `size_t`, hence `Nat`) and `_canUpdate`. -/
structure LockFreeQueue (α : Type) where
  buffer : List α
  hasDataFlags : List Bool
  head : Nat
  tail : Nat
  pendingActions : Nat
  pendingData : Nat
  canUpdate : Bool
deriving DecidableEq

variable {α : Type}

/-- `sleepDurationStep{ 1 }` (nanoseconds). -/
def sleepDurationStep : Int := 1

/-- `_maxSleepDuration{ 100 }` (nanoseconds). -/
def maxSleepDuration : Int := 100

/-- `backOff` of `src/LockFreeQueue.h`: increment the duration by
`sleepDurationStep` while it is below `_maxSleepDuration`, then sleep.
Only the returned duration is modelled. -/
def backOff (sleepDuration : Int) : Int :=
  if sleepDuration < maxSleepDuration then
    sleepDuration + sleepDurationStep
  else
    sleepDuration

/-- The body of `push`'s critical section (lines 33-42 of
`src/LockFreeQueue.h`): compute `newTail = (tail+1) % N`; claim index
`tail` and advance `_tail` only when `newTail != head` and the slot at
`tail` holds no committed data; in every other case `keepTrying` stays
`true` — there is no `else` branch, so a full queue keeps the loop
spinning. -/
def tryClaimPush (N : Nat) (s : LockFreeQueue α) :
    Option Nat × Bool × LockFreeQueue α :=
  let newTail := (s.tail + 1) % N
  if newTail ≠ s.head ∧ s.hasDataFlags.getD s.tail false = false then
    (some s.tail, false, { s with tail := newTail })
  else
    (none, true, s)

/-- One iteration of `push`'s retry loop.  The acquisition here is
`while (!_canUpdate.exchange(false)) {}`, which blocks until acquired;
sequentially, a state with `_canUpdate == false` spins forever, which is
modelled as `none`. -/
def pushAttempt (N : Nat) (s : LockFreeQueue α) :
    Option (Option Nat × Bool × LockFreeQueue α) :=
  if s.canUpdate then
    let r := tryClaimPush N { s with canUpdate := false }
    some (r.1, r.2.1, { r.2.2 with canUpdate := true })
  else
    none

/-- The `do … while (keepTrying)` loop of `push`, with explicit fuel. -/
def pushLoop (N : Nat) : Nat → LockFreeQueue α → Int →
    Option (Option Nat × LockFreeQueue α)
  | 0, _, _ => none
  | fuel + 1, s, d =>
    match pushAttempt N s with
    | none => none
    | some (idx, false, s') => some (idx, s')
    | some (_, true, s') => pushLoop N fuel s' (backOff d)

/-- `push` of `src/LockFreeQueue.h`: add 2 to `_pendingActions`, loop
until an index is claimed (the loop can only stop by claiming one), then
write the item, add 1 to `_pendingData`, subtract 1 from
`_pendingActions` and set the slot's `_hasData` flag.  The function
returns no success indication (`void`); `none` means the loop was still
spinning after `fuel` attempts.  `pushIndex` is a default-initialised
`size_t` in the source, hence `Option.getD idx 0`. -/
def push (N fuel : Nat) (s : LockFreeQueue α) (x : α) :
    Option (LockFreeQueue α) :=
  let s1 := { s with pendingActions := s.pendingActions + 2 }
  match pushLoop N fuel s1 0 with
  | none => none
  | some (idx, s') =>
      let i := idx.getD 0
      some { s' with buffer := s'.buffer.set i x,
                     pendingData := s'.pendingData + 1,
                     pendingActions := s'.pendingActions - 1,
                     hasDataFlags := s'.hasDataFlags.set i true }

/-- `hasData` of `src/LockFreeQueue.h`: `_pendingData.load() > 0`. -/
def hasData (s : LockFreeQueue α) : Bool :=
  decide (0 < s.pendingData)

/-- `hasWork` of `src/LockFreeQueue.h`: `_pendingActions.load() > 0`. -/
def hasWork (s : LockFreeQueue α) : Bool :=
  decide (0 < s.pendingActions)

/-- The default-constructed queue of `src/LockFreeQueue.h`. -/
def initial (α : Type) [Inhabited α] (N : Nat) : LockFreeQueue α :=
  { buffer := List.replicate N default
    hasDataFlags := List.replicate N false
    head := 0
    tail := 0
    pendingActions := 0
    pendingData := 0
    canUpdate := true }

end V3

/-! ### List helper lemmas -/

/-- Setting an entry to the value it already holds leaves the list
unchanged. -/
lemma list_set_getD_self {α : Type} (c : α) :
    ∀ (l : List α) (i : Nat), l.getD i c = c → l.set i c = l
  | [], _, _ => rfl
  | a :: t, 0, h => by simp only [List.getD_cons_zero] at h; simp [h]
  | a :: t, i + 1, h => by
      simp only [List.getD_cons_succ] at h
      simp [List.set, list_set_getD_self c t i h]

/-- `getD` on a constant list returns that constant. -/
lemma list_getD_replicate {α : Type} (c : α) :
    ∀ (n i : Nat), (List.replicate n c).getD i c = c
  | 0, _ => rfl
  | _ + 1, 0 => rfl
  | n + 1, i + 1 => by
      simp only [List.replicate, List.getD_cons_succ]
      exact list_getD_replicate c n i

/-- Setting an entry of a constant-`c` list to `c` is the identity. -/
lemma list_set_replicate {α : Type} (c : α) (n i : Nat) :
    (List.replicate n c).set i c = List.replicate n c :=
  list_set_getD_self c _ i (list_getD_replicate c n i)

namespace V1

variable {α : Type}

/-! ### Resolution of one `push`/`pop` attempt in the sequential model -/

/-- A full queue resolves the claim loop on the first attempt: `push`
subtracts back the optimistic `_pendingData` increment and returns
`false` with the state exactly as it was. -/
lemma push_full (N fuel : Nat) (s : LockFreeQueue α) (x : α)
    (hcu : s.canUpdate = true) (hfull : (s.tail + 1) % N = s.head)
    (hf : fuel ≠ 0) : push N fuel s x = some (s, false) := by
  obtain ⟨f, rfl⟩ : ∃ f, fuel = f + 1 := ⟨fuel - 1, by omega⟩
  cases s with
  | mk buffer isBusy head tail pendingData canUpdate =>
    simp only at hcu hfull
    subst hcu
    simp [push, pushLoop, pushAttempt, tryClaimPush, pushBegin, hfull]

/-- A non-full queue whose `tail` slot is not busy resolves the claim
loop on the first attempt: the item is written at the old `tail`, the
busy flag is set and cleared again, `_tail` advances and `_pendingData`
nets `+1`. -/
lemma push_success (N fuel : Nat) (s : LockFreeQueue α) (x : α)
    (hcu : s.canUpdate = true) (hne : (s.tail + 1) % N ≠ s.head)
    (hbusy : s.isBusy.getD s.tail false = false) (hf : fuel ≠ 0) :
    push N fuel s x =
      some ({ s with buffer := s.buffer.set s.tail x,
                     isBusy := (s.isBusy.set s.tail true).set s.tail false,
                     tail := (s.tail + 1) % N,
                     pendingData := s.pendingData + 1 }, true) := by
  obtain ⟨f, rfl⟩ : ∃ f, fuel = f + 1 := ⟨fuel - 1, by omega⟩
  cases s with
  | mk buffer isBusy head tail pendingData canUpdate =>
    simp only at hcu hne hbusy
    subst hcu
    simp only [List.getD_eq_getElem?_getD] at hbusy
    simp [push, pushLoop, pushAttempt, tryClaimPush, pushBegin, hne, hbusy]
    omega

/-- An empty queue resolves `pop`'s claim loop on the first attempt:
`pop` returns no item and the state is exactly as it was. -/
lemma pop_empty [Inhabited α] (N fuel : Nat) (s : LockFreeQueue α)
    (hcu : s.canUpdate = true) (hempty : s.head = s.tail)
    (hf : fuel ≠ 0) : pop N fuel s = some (s, none) := by
  obtain ⟨f, rfl⟩ : ∃ f, fuel = f + 1 := ⟨fuel - 1, by omega⟩
  cases s with
  | mk buffer isBusy head tail pendingData canUpdate =>
    simp only at hcu hempty
    subst hcu
    simp [pop, popLoop, popAttempt, tryClaimPop, hempty]

/-- A non-empty queue whose `head` slot is not busy resolves `pop`'s
claim loop on the first attempt: the item at the old `head` is returned,
`_head` advances and `_pendingData` drops by one. -/
lemma pop_success [Inhabited α] (N fuel : Nat) (s : LockFreeQueue α)
    (hcu : s.canUpdate = true) (hne : s.head ≠ s.tail)
    (hbusy : s.isBusy.getD s.head false = false) (hf : fuel ≠ 0) :
    pop N fuel s =
      some ({ s with isBusy := (s.isBusy.set s.head true).set s.head false,
                     head := (s.head + 1) % N,
                     pendingData := s.pendingData - 1 },
            some (s.buffer.getD s.head default)) := by
  obtain ⟨f, rfl⟩ : ∃ f, fuel = f + 1 := ⟨fuel - 1, by omega⟩
  cases s with
  | mk buffer isBusy head tail pendingData canUpdate =>
    simp only at hcu hne hbusy
    subst hcu
    simp only [List.getD_eq_getElem?_getD] at hbusy
    simp [pop, popLoop, popAttempt, tryClaimPop, hne, hbusy]

/-- With fuel `0` the claim loop has not run, so `push` reports that it
is still spinning. -/
lemma push_fuel_zero (N : Nat) (s : LockFreeQueue α) (x : α) :
    push N 0 s x = none := rfl

/-- With fuel `0` the claim loop has not run, so `pop` reports that it
is still spinning. -/
lemma pop_fuel_zero [Inhabited α] (N : Nat) (s : LockFreeQueue α) :
    pop N 0 s = none := rfl

/-! ### Behaviour on an already-owned slot: silent retry -/

/-- When the slot at `tail` is already owned (`_isBusy` set) and the
queue is not full, one push attempt claims nothing, leaves the whole
state unchanged and keeps `keepTrying` true. -/
lemma pushAttempt_busy (N : Nat) (s : LockFreeQueue α)
    (hcu : s.canUpdate = true) (hne : (s.tail + 1) % N ≠ s.head)
    (hbusy : s.isBusy.getD s.tail false = true) :
    pushAttempt N s = (none, true, s) := by
  cases s with
  | mk buffer isBusy head tail pendingData canUpdate =>
    simp only at hcu hne hbusy
    subst hcu
    simp only [List.getD_eq_getElem?_getD] at hbusy
    simp [pushAttempt, tryClaimPush, hne, hbusy]

/-- When the slot at `head` is already owned and the queue is not empty,
one pop attempt claims nothing, leaves the whole state unchanged and
keeps `keepTrying` true. -/
lemma popAttempt_busy (N : Nat) (s : LockFreeQueue α)
    (hcu : s.canUpdate = true) (hne : s.head ≠ s.tail)
    (hbusy : s.isBusy.getD s.head false = true) :
    popAttempt N s = (none, true, s) := by
  cases s with
  | mk buffer isBusy head tail pendingData canUpdate =>
    simp only at hcu hne hbusy
    subst hcu
    simp only [List.getD_eq_getElem?_getD] at hbusy
    simp [popAttempt, tryClaimPop, hne, hbusy]

/-- While the slot at `tail` stays owned, the claim loop of `push` never
terminates: it silently retries for any amount of fuel. -/
lemma pushLoop_busy (N : Nat) (s : LockFreeQueue α)
    (hcu : s.canUpdate = true) (hne : (s.tail + 1) % N ≠ s.head)
    (hbusy : s.isBusy.getD s.tail false = true) :
    ∀ (fuel : Nat) (d : Int), pushLoop N fuel s d = none := by
  intro fuel
  induction fuel with
  | zero => intro d; rfl
  | succ f ih =>
      intro d
      simp only [pushLoop, pushAttempt_busy N s hcu hne hbusy]
      exact ih (backOff d)

/-- While the slot at `head` stays owned, the claim loop of `pop` never
terminates: it silently retries for any amount of fuel. -/
lemma popLoop_busy (N : Nat) (s : LockFreeQueue α)
    (hcu : s.canUpdate = true) (hne : s.head ≠ s.tail)
    (hbusy : s.isBusy.getD s.head false = true) :
    ∀ (fuel : Nat) (d : Int), popLoop N fuel s d = none := by
  intro fuel
  induction fuel with
  | zero => intro d; rfl
  | succ f ih =>
      intro d
      simp only [popLoop, popAttempt_busy N s hcu hne hbusy]
      exact ih (backOff d)

/-- `push` against a permanently owned `tail` slot never returns: no
assertion fires and no state is produced, for any amount of fuel. -/
lemma push_busy (N fuel : Nat) (s : LockFreeQueue α) (x : α)
    (hcu : s.canUpdate = true) (hne : (s.tail + 1) % N ≠ s.head)
    (hbusy : s.isBusy.getD s.tail false = true) :
    push N fuel s x = none := by
  have h : pushLoop N fuel (pushBegin s) sleepDurationStart = none :=
    pushLoop_busy N (pushBegin s) hcu hne hbusy fuel sleepDurationStart
  simp [push, h]

/-- `pop` against a permanently owned `head` slot never returns: no
assertion fires and no state is produced, for any amount of fuel. -/
lemma pop_busy [Inhabited α] (N fuel : Nat) (s : LockFreeQueue α)
    (hcu : s.canUpdate = true) (hne : s.head ≠ s.tail)
    (hbusy : s.isBusy.getD s.head false = true) :
    pop N fuel s = none := by
  have h : popLoop N fuel s sleepDurationStart = none :=
    popLoop_busy N s hcu hne hbusy fuel sleepDurationStart
  simp [pop, h]

end V1

namespace V3

variable {α : Type}

/-- In the retry-until-success revision, one push attempt against a full
queue claims nothing, leaves the state unchanged and keeps the loop
going (`keepTrying` has no `false` branch for the full case). -/
lemma pushAttempt_full (N : Nat) (s : LockFreeQueue α)
    (hcu : s.canUpdate = true) (hfull : (s.tail + 1) % N = s.head) :
    pushAttempt N s = some (none, true, s) := by
  cases s with
  | mk buffer hasDataFlags head tail pendingActions pendingData canUpdate =>
    simp only at hcu hfull
    subst hcu
    simp [pushAttempt, tryClaimPush, hfull]

/-- In the retry-until-success revision the claim loop of `push` spins
forever against a full queue, for any amount of fuel. -/
lemma pushLoop_full (N : Nat) (s : LockFreeQueue α)
    (hcu : s.canUpdate = true) (hfull : (s.tail + 1) % N = s.head) :
    ∀ (fuel : Nat) (d : Int), pushLoop N fuel s d = none := by
  intro fuel
  induction fuel with
  | zero => intro d; rfl
  | succ f ih =>
      intro d
      simp only [pushLoop, pushAttempt_full N s hcu hfull]
      exact ih (backOff d)

/-- `push` of the retry-until-success revision never returns to its
caller while the queue stays full, for any amount of fuel. -/
lemma push_full_spins (N fuel : Nat) (s : LockFreeQueue α) (x : α)
    (hcu : s.canUpdate = true) (hfull : (s.tail + 1) % N = s.head) :
    push N fuel s x = none := by
  have h : pushLoop N fuel
      { s with pendingActions := s.pendingActions + 2 } 0 = none :=
    pushLoop_full N { s with pendingActions := s.pendingActions + 2 }
      hcu hfull fuel 0
  simp [push, h]

end V3

namespace V1

variable {α : Type}

/-! ### Ring arithmetic for the committed-slot count -/

/-- Advancing `tail` by one (mod `N`) on a non-full ring adds one
committed slot. -/
lemma ring_count_push {N h t : Nat} (hh : h < N) (ht : t < N)
    (hne : (t + 1) % N ≠ h) :
    (if h ≤ (t + 1) % N then (t + 1) % N - h else (t + 1) % N + N - h) =
      (if h ≤ t then t - h else t + N - h) + 1 := by
  have hu : (t + 1) % N = 0 ∧ t + 1 = N ∨ (t + 1) % N = t + 1 ∧ t + 1 < N := by
    rcases Nat.lt_or_ge (t + 1) N with hlt | hge
    · exact Or.inr ⟨Nat.mod_eq_of_lt hlt, hlt⟩
    · have heq : t + 1 = N := by omega
      exact Or.inl ⟨by simp [heq], heq⟩
  rcases hu with ⟨h1, h2⟩ | ⟨h1, h2⟩ <;> rw [h1] at hne ⊢ <;>
    split_ifs <;> omega

/-- Advancing `head` by one (mod `N`) on a non-empty ring removes one
committed slot. -/
lemma ring_count_pop {N h t : Nat} (hh : h < N) (ht : t < N)
    (hne : h ≠ t) :
    (if (h + 1) % N ≤ t then t - (h + 1) % N else t + N - (h + 1) % N) + 1 =
      (if h ≤ t then t - h else t + N - h) := by
  have hu : (h + 1) % N = 0 ∧ h + 1 = N ∨ (h + 1) % N = h + 1 ∧ h + 1 < N := by
    rcases Nat.lt_or_ge (h + 1) N with hlt | hge
    · exact Or.inr ⟨Nat.mod_eq_of_lt hlt, hlt⟩
    · have heq : h + 1 = N := by omega
      exact Or.inl ⟨by simp [heq], heq⟩
  rcases hu with ⟨h1, h2⟩ | ⟨h1, h2⟩ <;> rw [h1] <;>
    split_ifs <;> omega

/-! ### The single-thread reachability invariant -/

/-- Invariant of quiescent (no operation in flight) reachable states:
well-formed lengths and indices, all busy flags clear, the critical
section free, and `_pendingData` equal to the committed-slot count. -/
def Inv (N : Nat) (s : LockFreeQueue α) : Prop :=
  s.buffer.length = N ∧ s.isBusy = List.replicate N false ∧
    s.head < N ∧ s.tail < N ∧ s.canUpdate = true ∧
    s.pendingData = (committedCount N s : Int)

/-- Every state reachable by complete sequential operations satisfies
the invariant. -/
lemma reachable_inv {N : Nat} [Inhabited α] (hN : 0 < N)
    {s : LockFreeQueue α} (hs : Reachable α N s) : Inv N s := by
  induction hs with
  | init =>
      refine ⟨List.length_replicate _ _, rfl, hN, hN, rfl, ?_⟩
      simp [initial, committedCount]
  | @pushStep s s' fuel x b _ hp ih =>
      obtain ⟨hlen, hbusyall, hh, ht, hcu, hpd⟩ := ih
      rcases Nat.eq_zero_or_pos fuel with hf | hf
      · subst hf; rw [push_fuel_zero] at hp; exact absurd hp (by simp)
      have hbusy : s.isBusy.getD s.tail false = false := by
        rw [hbusyall]; exact list_getD_replicate false N s.tail
      by_cases hfull : (s.tail + 1) % N = s.head
      · rw [push_full N fuel s x hcu hfull (by omega)] at hp
        simp only [Option.some.injEq, Prod.mk.injEq] at hp
        obtain ⟨h1, h2⟩ := hp
        subst h1
        exact ⟨hlen, hbusyall, hh, ht, hcu, hpd⟩
      · rw [push_success N fuel s x hcu hfull hbusy (by omega)] at hp
        simp only [Option.some.injEq, Prod.mk.injEq] at hp
        obtain ⟨h1, h2⟩ := hp
        subst h1
        have hrestore : (s.isBusy.set s.tail true).set s.tail false =
            List.replicate N false := by
          rw [List.set_set, hbusyall, list_set_replicate]
        refine ⟨by simpa using hlen, hrestore, hh,
          Nat.mod_lt _ hN, hcu, ?_⟩
        show s.pendingData + 1 = _
        rw [hpd]
        have harith := ring_count_push hh ht hfull
        simp only [committedCount] at *
        simp only [harith]
        push_cast
        ring
  | @popStep s s' fuel r _ hp ih =>
      obtain ⟨hlen, hbusyall, hh, ht, hcu, hpd⟩ := ih
      rcases Nat.eq_zero_or_pos fuel with hf | hf
      · subst hf; rw [pop_fuel_zero] at hp; exact absurd hp (by simp)
      by_cases hempty : s.head = s.tail
      · rw [pop_empty N fuel s hcu hempty (by omega)] at hp
        simp only [Option.some.injEq, Prod.mk.injEq] at hp
        obtain ⟨h1, h2⟩ := hp
        subst h1
        exact ⟨hlen, hbusyall, hh, ht, hcu, hpd⟩
      · have hbusy : s.isBusy.getD s.head false = false := by
          rw [hbusyall]; exact list_getD_replicate false N s.head
        rw [pop_success N fuel s hcu hempty hbusy (by omega)] at hp
        simp only [Option.some.injEq, Prod.mk.injEq] at hp
        obtain ⟨h1, h2⟩ := hp
        subst h1
        have hrestore : (s.isBusy.set s.head true).set s.head false =
            List.replicate N false := by
          rw [List.set_set, hbusyall, list_set_replicate]
        refine ⟨hlen, hrestore, Nat.mod_lt _ hN, ht, hcu, ?_⟩
        show s.pendingData - 1 = _
        rw [hpd]
        have harith := ring_count_pop hh ht hempty
        simp only [committedCount] at *
        omega

end V1

/-! ## Claim theorems -/

/-- C1: on every reachable queue state that is full
(`(tail+1) mod N == head`), a non-blocking `push` returns `false` and
leaves the state — every slot's contents, every busy flag, `head` and
`tail` — exactly unchanged; on every reachable state that is empty
(`head == tail`), `pop` returns no item and leaves the state exactly
unchanged. -/
theorem push_full_pop_empty_nonmutating {α : Type} [Inhabited α] {N : Nat}
    (hN : 0 < N) {s : V1.LockFreeQueue α} (hs : V1.Reachable α N s)
    (x : α) (fuel : Nat) (hf : fuel ≠ 0) :
    ((s.tail + 1) % N = s.head → V1.push N fuel s x = some (s, false)) ∧
    (s.head = s.tail → V1.pop N fuel s = some (s, none)) :=
  have hcu : s.canUpdate = true := (V1.reachable_inv hN hs).2.2.2.2.1
  ⟨fun hfull => V1.push_full N fuel s x hcu hfull hf,
   fun hempty => V1.pop_empty N fuel s hcu hempty hf⟩

/-- Witness for C1 at the reachable full state of a 2-slot queue. -/
theorem push_full_pop_empty_nonmutating_witness :
    V1.push 2 1
        (⟨[5, 0], [false, false], 0, 1, 1, true⟩ : V1.LockFreeQueue Nat)
        7 =
      some (⟨[5, 0], [false, false], 0, 1, 1, true⟩, false) :=
  (push_full_pop_empty_nonmutating (by decide)
    (V1.Reachable.pushStep V1.Reachable.init
      (by decide :
        V1.push 2 1 (V1.initial Nat 2) 5 =
          some (⟨[5, 0], [false, false], 0, 1, 1, true⟩, true)))
    7 1 (by decide)).1 (by decide)

/-- C2: the `bool`-returning `push` (src/include revision) reports `false`
to the caller after a single claim attempt on a full queue, with no state
change, while the retry-until-success revision (`src/LockFreeQueue.h`)
never returns to the caller while the queue stays full — for any amount
of fuel its claim loop is still spinning. -/
theorem push_returns_false_not_retry {α : Type} {N : Nat}
    (s1 : V1.LockFreeQueue α) (s3 : V3.LockFreeQueue α)
    (hcu1 : s1.canUpdate = true) (hfull1 : (s1.tail + 1) % N = s1.head)
    (hcu3 : s3.canUpdate = true) (hfull3 : (s3.tail + 1) % N = s3.head)
    (fuel : Nat) (hf : fuel ≠ 0) (x : α) :
    V1.push N fuel s1 x = some (s1, false) ∧
    V3.push N fuel s3 x = none :=
  ⟨V1.push_full N fuel s1 x hcu1 hfull1 hf,
   V3.push_full_spins N fuel s3 x hcu3 hfull3⟩

/-- Witness for C2 at concrete full states of both revisions. -/
theorem push_returns_false_not_retry_witness :
    V1.push 2 9
        (⟨[5, 0], [false, false], 0, 1, 1, true⟩ : V1.LockFreeQueue Nat)
        7 =
      some (⟨[5, 0], [false, false], 0, 1, 1, true⟩, false) ∧
    V3.push 2 9
        (⟨[5, 0], [true, false], 0, 1, 0, 1, true⟩ :
          V3.LockFreeQueue Nat) 7 = none :=
  push_returns_false_not_retry _ _ rfl (by decide) rfl (by decide) 9
    (by decide) 7

/-- C3: the push claim step computes `candidate_tail = (tail+1) mod N`;
if that equals `head` it claims nothing and stops the loop signalling
full; otherwise, when the slot at `tail` is free, it claims index `tail`
(the old value), marks that slot owned, stores `candidate_tail` into
`tail`, and touches neither `head` nor the buffer. -/
theorem tryClaimPush_spec {α : Type} (N : Nat) (s : V1.LockFreeQueue α) :
    ((s.tail + 1) % N = s.head →
      V1.tryClaimPush N s = (none, false, s)) ∧
    ((s.tail + 1) % N ≠ s.head → s.isBusy.getD s.tail false = false →
      (V1.tryClaimPush N s).1 = some s.tail ∧
      (V1.tryClaimPush N s).2.1 = false ∧
      (V1.tryClaimPush N s).2.2.tail = (s.tail + 1) % N ∧
      (V1.tryClaimPush N s).2.2.head = s.head ∧
      (V1.tryClaimPush N s).2.2.isBusy = s.isBusy.set s.tail true ∧
      (V1.tryClaimPush N s).2.2.buffer = s.buffer) := by
  constructor
  · intro hfull
    simp [V1.tryClaimPush, hfull]
  · intro hne hbusy
    simp only [List.getD_eq_getElem?_getD] at hbusy
    simp [V1.tryClaimPush, hne, hbusy]

/-- Witness for C3 on a concrete non-full and a concrete full state. -/
theorem tryClaimPush_spec_witness :
    V1.tryClaimPush 4
        (⟨[5, 0, 0, 0], [false, false, false, false], 3, 2, 3, true⟩ :
          V1.LockFreeQueue Nat) =
      (none, false, ⟨[5, 0, 0, 0], [false, false, false, false], 3, 2, 3,
        true⟩) ∧
    (V1.tryClaimPush 4
        (⟨[5, 0, 0, 0], [false, false, false, false], 0, 1, 1, true⟩ :
          V1.LockFreeQueue Nat)).1 = some 1 :=
  ⟨(tryClaimPush_spec 4 _).1 (by decide),
   ((tryClaimPush_spec 4 _).2 (by decide) (by decide)).1⟩

/-- C4: the pop claim step claims nothing when `head == tail` (empty,
loop stops); when the queue is non-empty and the slot at `head` is
committed (not busy) it claims index `head` (the old value), marks the
slot owned by the consumer, stores `(head+1) mod N` into `head` and
touches neither `tail` nor the buffer; when the slot at `head` is still
being written (busy) it claims nothing and the state is unchanged. -/
theorem tryClaimPop_spec {α : Type} (N : Nat) (s : V1.LockFreeQueue α) :
    (s.head = s.tail → V1.tryClaimPop N s = (none, false, s)) ∧
    (s.head ≠ s.tail → s.isBusy.getD s.head false = false →
      (V1.tryClaimPop N s).1 = some s.head ∧
      (V1.tryClaimPop N s).2.1 = false ∧
      (V1.tryClaimPop N s).2.2.head = (s.head + 1) % N ∧
      (V1.tryClaimPop N s).2.2.tail = s.tail ∧
      (V1.tryClaimPop N s).2.2.isBusy = s.isBusy.set s.head true ∧
      (V1.tryClaimPop N s).2.2.buffer = s.buffer) ∧
    (s.head ≠ s.tail → s.isBusy.getD s.head false = true →
      V1.tryClaimPop N s = (none, true, s)) := by
  refine ⟨fun hempty => ?_, fun hne hbusy => ?_, fun hne hbusy => ?_⟩
  · simp [V1.tryClaimPop, hempty]
  · simp only [List.getD_eq_getElem?_getD] at hbusy
    simp [V1.tryClaimPop, hne, hbusy]
  · simp only [List.getD_eq_getElem?_getD] at hbusy
    simp [V1.tryClaimPop, hne, hbusy]

/-- Witness for C4 on concrete empty and non-empty states. -/
theorem tryClaimPop_spec_witness :
    V1.tryClaimPop 4
        (⟨[5, 0, 0, 0], [false, false, false, false], 2, 2, 0, true⟩ :
          V1.LockFreeQueue Nat) =
      (none, false, ⟨[5, 0, 0, 0], [false, false, false, false], 2, 2, 0,
        true⟩) ∧
    (V1.tryClaimPop 4
        (⟨[5, 0, 0, 0], [false, false, false, false], 0, 1, 1, true⟩ :
          V1.LockFreeQueue Nat)).1 = some 0 :=
  ⟨(tryClaimPop_spec 4 _).1 (by decide),
   ((tryClaimPop_spec 4 _).2.1 (by decide) (by decide)).1⟩

/-- C5 counterexample: in the state reached right after a `push` has
begun (after `_pendingData.fetch_add(2)`, before any slot is claimed),
the pending-data counter of the fresh 4-slot queue is `2` while no slot
holds a committed value, and `hasData()` already returns `true` — so
mid-operation the counter does not equal the committed-slot count. -/
theorem pending_counter_midpush_counterexample :
    (V1.pushBegin (V1.initial Nat 4)).pendingData ≠
      (V1.committedCount 4 (V1.pushBegin (V1.initial Nat 4)) : Int) ∧
    V1.committedCount 4 (V1.pushBegin (V1.initial Nat 4)) = 0 ∧
    V1.hasData (V1.pushBegin (V1.initial Nat 4)) = true := by decide

/-- C5 amended: in every reachable quiescent state (no push or pop in
flight), `_pendingData` equals the number of slots holding a committed,
unread value, and `hasData()` returns `true` iff at least one such slot
exists.  Mid-operation the counter is transiently off by the optimistic
`fetch_add(2)`. -/
theorem pending_counter_quiescent {α : Type} [Inhabited α] {N : Nat}
    (hN : 0 < N) {s : V1.LockFreeQueue α} (hs : V1.Reachable α N s) :
    s.pendingData = (V1.committedCount N s : Int) ∧
    (V1.hasData s = true ↔ V1.committedCount N s ≠ 0) := by
  have hpd := (V1.reachable_inv hN hs).2.2.2.2.2
  refine ⟨hpd, ?_⟩
  simp [V1.hasData, hpd]

/-- Witness for C5 at the reachable one-item state of a 2-slot queue. -/
theorem pending_counter_quiescent_witness :
    (⟨[5, 0], [false, false], 0, 1, 1, true⟩ :
        V1.LockFreeQueue Nat).pendingData =
      (V1.committedCount 2
        (⟨[5, 0], [false, false], 0, 1, 1, true⟩ :
          V1.LockFreeQueue Nat) : Int) ∧
    (V1.hasData
        (⟨[5, 0], [false, false], 0, 1, 1, true⟩ :
          V1.LockFreeQueue Nat) = true ↔
      V1.committedCount 2
        (⟨[5, 0], [false, false], 0, 1, 1, true⟩ :
          V1.LockFreeQueue Nat) ≠ 0) :=
  pending_counter_quiescent (by decide)
    (V1.Reachable.pushStep V1.Reachable.init
      (by decide :
        V1.push 2 1 (V1.initial Nat 2) 5 =
          some (⟨[5, 0], [false, false], 0, 1, 1, true⟩, true)))

/-- C6: in every reachable state the committed-slot count is at most
`N-1`; the count reaches `N-1` exactly in the configuration
`(tail+1) mod N == head`, which `push` treats as full by returning
`false` — so a queue built with buffer size `N` holds at most `N-1`
items. -/
theorem bounded_occupancy {α : Type} [Inhabited α] {N : Nat}
    (hN : 0 < N) {s : V1.LockFreeQueue α} (hs : V1.Reachable α N s)
    (x : α) (fuel : Nat) (hf : fuel ≠ 0) :
    V1.committedCount N s ≤ N - 1 ∧
    (V1.committedCount N s = N - 1 ↔ (s.tail + 1) % N = s.head) ∧
    (V1.committedCount N s = N - 1 →
      V1.push N fuel s x = some (s, false)) := by
  obtain ⟨hlen, hbusyall, hh, ht, hcu, hpd⟩ := V1.reachable_inv hN hs
  have hu : (s.tail + 1) % N = 0 ∧ s.tail + 1 = N ∨
      (s.tail + 1) % N = s.tail + 1 ∧ s.tail + 1 < N := by
    rcases Nat.lt_or_ge (s.tail + 1) N with hlt | hge
    · exact Or.inr ⟨Nat.mod_eq_of_lt hlt, hlt⟩
    · have heq : s.tail + 1 = N := by omega
      exact Or.inl ⟨by simp [heq], heq⟩
  have hiff : V1.committedCount N s = N - 1 ↔
      (s.tail + 1) % N = s.head := by
    rcases hu with ⟨h1, h2⟩ | ⟨h1, h2⟩ <;> rw [h1] <;>
      simp only [V1.committedCount] <;> split_ifs <;> omega
  refine ⟨?_, hiff, fun hcc => ?_⟩
  · simp only [V1.committedCount]; split_ifs <;> omega
  · exact V1.push_full N fuel s x hcu (hiff.mp hcc) hf

/-- Witness for C6 at the reachable full state of a 2-slot queue. -/
theorem bounded_occupancy_witness :
    V1.committedCount 2
        (⟨[5, 0], [false, false], 0, 1, 1, true⟩ :
          V1.LockFreeQueue Nat) ≤ 1 ∧
    V1.push 2 1
        (⟨[5, 0], [false, false], 0, 1, 1, true⟩ : V1.LockFreeQueue Nat)
        9 =
      some (⟨[5, 0], [false, false], 0, 1, 1, true⟩, false) :=
  have hs : V1.Reachable Nat 2
      (⟨[5, 0], [false, false], 0, 1, 1, true⟩ : V1.LockFreeQueue Nat) :=
    V1.Reachable.pushStep V1.Reachable.init
      (by decide :
        V1.push 2 1 (V1.initial Nat 2) 5 =
          some (⟨[5, 0], [false, false], 0, 1, 1, true⟩, true))
  ⟨(bounded_occupancy (by decide) hs 9 1 (by decide)).1,
   (bounded_occupancy (by decide) hs 9 1 (by decide)).2.2 (by decide)⟩

/-- C7: on a capacity-4 queue driven sequentially, pushes of `1`, `2`,
`3` all succeed, a fourth push fails (full); three pops then yield `1`,
`2`, `3` in order and a fourth pop fails (empty). -/
theorem sequential_scenario_n4 :
    V1.push 4 1 (V1.initial Nat 4) 1 =
      some (⟨[1, 0, 0, 0], [false, false, false, false], 0, 1, 1, true⟩,
        true) ∧
    V1.push 4 1
        (⟨[1, 0, 0, 0], [false, false, false, false], 0, 1, 1, true⟩ :
          V1.LockFreeQueue Nat) 2 =
      some (⟨[1, 2, 0, 0], [false, false, false, false], 0, 2, 2, true⟩,
        true) ∧
    V1.push 4 1
        (⟨[1, 2, 0, 0], [false, false, false, false], 0, 2, 2, true⟩ :
          V1.LockFreeQueue Nat) 3 =
      some (⟨[1, 2, 3, 0], [false, false, false, false], 0, 3, 3, true⟩,
        true) ∧
    V1.push 4 1
        (⟨[1, 2, 3, 0], [false, false, false, false], 0, 3, 3, true⟩ :
          V1.LockFreeQueue Nat) 4 =
      some (⟨[1, 2, 3, 0], [false, false, false, false], 0, 3, 3, true⟩,
        false) ∧
    V1.pop 4 1
        (⟨[1, 2, 3, 0], [false, false, false, false], 0, 3, 3, true⟩ :
          V1.LockFreeQueue Nat) =
      some (⟨[1, 2, 3, 0], [false, false, false, false], 1, 3, 2, true⟩,
        some 1) ∧
    V1.pop 4 1
        (⟨[1, 2, 3, 0], [false, false, false, false], 1, 3, 2, true⟩ :
          V1.LockFreeQueue Nat) =
      some (⟨[1, 2, 3, 0], [false, false, false, false], 2, 3, 1, true⟩,
        some 2) ∧
    V1.pop 4 1
        (⟨[1, 2, 3, 0], [false, false, false, false], 2, 3, 1, true⟩ :
          V1.LockFreeQueue Nat) =
      some (⟨[1, 2, 3, 0], [false, false, false, false], 3, 3, 0, true⟩,
        some 3) ∧
    V1.pop 4 1
        (⟨[1, 2, 3, 0], [false, false, false, false], 3, 3, 0, true⟩ :
          V1.LockFreeQueue Nat) =
      some (⟨[1, 2, 3, 0], [false, false, false, false], 3, 3, 0, true⟩,
        none) := by decide

/-- C8: both revisions' `backOff` grows the delay by the fixed step
`sleepDurationStep` per call while the delay is below the configured
maximum; at the maximum the include revision wraps back to
`sleepDurationStart` while the root revision saturates at the maximum;
neither ever returns more than the maximum plus one step (the root
revision's delay, starting at `0`, never exceeds its maximum at all). -/
theorem backoff_growth (d e : Int) (he0 : 0 ≤ e)
    (heM : e ≤ V3.maxSleepDuration) :
    (d < V1.maxSleepDuration →
      V1.backOff d = d + V1.sleepDurationStep) ∧
    (V1.maxSleepDuration ≤ d →
      V1.backOff d = V1.sleepDurationStart) ∧
    V1.backOff d ≤ V1.maxSleepDuration + V1.sleepDurationStep ∧
    (e < V3.maxSleepDuration →
      V3.backOff e = e + V3.sleepDurationStep) ∧
    (e = V3.maxSleepDuration → V3.backOff e = V3.maxSleepDuration) ∧
    V3.backOff e ≤ V3.maxSleepDuration := by
  simp only [V1.backOff, V3.backOff, V1.maxSleepDuration,
    V1.sleepDurationStep, V1.sleepDurationStart, V3.maxSleepDuration,
    V3.sleepDurationStep] at heM ⊢
  split_ifs <;> omega

/-- Witness for C8: growth below the maximum, wrap in the include
revision, saturation in the root revision. -/
theorem backoff_growth_witness :
    V1.backOff 0 = 0 + V1.sleepDurationStep ∧
    V1.backOff 1 = V1.sleepDurationStart ∧
    V3.backOff 99 = 99 + V3.sleepDurationStep ∧
    V3.backOff 100 = V3.maxSleepDuration :=
  ⟨(backoff_growth 0 0 (by decide) (by decide)).1 (by decide),
   (backoff_growth 1 0 (by decide) (by decide)).2.1 (by decide),
   (backoff_growth 0 99 (by decide) (by decide)).2.2.2.1 (by decide),
   (backoff_growth 0 100 (by decide) (by decide)).2.2.2.2.1 (by decide)⟩

/-- C9 counterexample: with slot 1 (the `tail` slot) already owned in a
non-full 4-slot queue, one push attempt claims nothing and reports
`keepTrying` with the state unchanged, and `push` is still silently
retrying after 5 attempts — no assertion or panic is modelled anywhere
on this path because the source raises none; symmetrically for `pop`
with the `head` slot owned. -/
theorem busy_slot_silent_retry_counterexample :
    V1.pushAttempt 4
        (⟨[0, 0, 0, 0], [false, true, false, false], 0, 1, 1, true⟩ :
          V1.LockFreeQueue Nat) =
      (none, true,
        ⟨[0, 0, 0, 0], [false, true, false, false], 0, 1, 1, true⟩) ∧
    V1.push 4 5
        (⟨[0, 0, 0, 0], [false, true, false, false], 0, 1, 1, true⟩ :
          V1.LockFreeQueue Nat) 7 = none ∧
    V1.popAttempt 4
        (⟨[0, 0, 0, 0], [true, false, false, false], 0, 1, 1, true⟩ :
          V1.LockFreeQueue Nat) =
      (none, true,
        ⟨[0, 0, 0, 0], [true, false, false, false], 0, 1, 1, true⟩) ∧
    V1.pop 4 5
        (⟨[0, 0, 0, 0], [true, false, false, false], 0, 1, 1, true⟩ :
          V1.LockFreeQueue Nat) = none := by decide

/-- C9 amended: when a push or pop attempt finds the slot it would claim
already owned (busy flag set), it claims nothing, leaves the entire
state — in particular `head`, `tail` and every slot — unchanged, and
silently retries for any amount of fuel; it never advances past or
overwrites the owned slot, and no assertion or panic is raised. -/
theorem busy_slot_silent_retry {α : Type} [Inhabited α] {N : Nat}
    (s : V1.LockFreeQueue α) (hcu : s.canUpdate = true) (fuel : Nat)
    (x : α) :
    ((s.tail + 1) % N ≠ s.head → s.isBusy.getD s.tail false = true →
      V1.pushAttempt N s = (none, true, s) ∧
      V1.push N fuel s x = none) ∧
    (s.head ≠ s.tail → s.isBusy.getD s.head false = true →
      V1.popAttempt N s = (none, true, s) ∧
      V1.pop N fuel s = none) :=
  ⟨fun hne hbusy =>
    ⟨V1.pushAttempt_busy N s hcu hne hbusy,
     V1.push_busy N fuel s x hcu hne hbusy⟩,
   fun hne hbusy =>
    ⟨V1.popAttempt_busy N s hcu hne hbusy,
     V1.pop_busy N fuel s hcu hne hbusy⟩⟩

/-- Witness for C9 at a concrete busy-slot state. -/
theorem busy_slot_silent_retry_witness :
    V1.pushAttempt 4
        (⟨[0, 0, 0, 0], [false, true, false, false], 0, 1, 1, true⟩ :
          V1.LockFreeQueue Nat) =
      (none, true,
        ⟨[0, 0, 0, 0], [false, true, false, false], 0, 1, 1, true⟩) ∧
    V1.push 4 3
        (⟨[0, 0, 0, 0], [false, true, false, false], 0, 1, 1, true⟩ :
          V1.LockFreeQueue Nat) 7 = none :=
  (busy_slot_silent_retry
    (⟨[0, 0, 0, 0], [false, true, false, false], 0, 1, 1, true⟩ :
      V1.LockFreeQueue Nat) rfl 3 7).1 (by decide) (by decide)

/-- C10: the freshly constructed queue of either revision has
`head == tail == 0`, all per-slot flags clear, all counters zero,
`hasData()` and `hasWork()` false, and its first `pop` returns `false`
without modifying any state. -/
theorem fresh_queue_state {α : Type} [Inhabited α] (N fuel : Nat)
    (hf : fuel ≠ 0) :
    (V1.initial α N).head = 0 ∧ (V1.initial α N).tail = 0 ∧
    (∀ j, (V1.initial α N).isBusy.getD j false = false) ∧
    (V1.initial α N).pendingData = 0 ∧
    V1.hasData (V1.initial α N) = false ∧
    V1.pop N fuel (V1.initial α N) = some (V1.initial α N, none) ∧
    (V3.initial α N).head = 0 ∧ (V3.initial α N).tail = 0 ∧
    (∀ j, (V3.initial α N).hasDataFlags.getD j false = false) ∧
    (V3.initial α N).pendingData = 0 ∧
    (V3.initial α N).pendingActions = 0 ∧
    V3.hasData (V3.initial α N) = false ∧
    V3.hasWork (V3.initial α N) = false :=
  ⟨rfl, rfl, fun j => list_getD_replicate false N j, rfl, rfl,
   V1.pop_empty N fuel (V1.initial α N) rfl rfl hf,
   rfl, rfl, fun j => list_getD_replicate false N j, rfl, rfl, rfl, rfl⟩

/-- Witness for C10 on a fresh 4-slot queue of naturals. -/
theorem fresh_queue_state_witness :
    V1.pop 4 1 (V1.initial Nat 4) = some (V1.initial Nat 4, none) ∧
    V3.hasWork (V3.initial Nat 4) = false :=
  ⟨(fresh_queue_state 4 1 (by decide)).2.2.2.2.2.1,
   (fresh_queue_state (α := Nat) 4 1 (by decide)).2.2.2.2.2.2.2.2.2.2.2.2⟩

